import Mathlib

/-!
Shallow embedding of the ChainerX CUDA QR kernel
(`chainerx_cc/chainerx/cuda/cuda_device/linalg.cu`, `CudaQRKernel::Call`
and its inner lambda `qr_impl`).

The vendor (cuSOLVER) primitives `geqrf` / `orgqr` and their buffer-size
queries are opaque to this core: they are modelled as an oracle record
`Solver` supplied as a parameter.  Device-side effects that the claims
talk about (allocations of Q/R/tau/devInfo/scratch, the two vendor
invocations and which scratch pointer is handed to them, the status
read-backs) are recorded in an event trace returned next to the result.
-/

namespace ChainerxQR

/-- The dtypes the kernel's switch distinguishes (`Dtype::kFloat16/32/64`;
any other dtype is `CHAINERX_NEVER_REACH`). -/
inductive Dtype : Type
  | float16
  | float32
  | float64
deriving DecidableEq, Repr

/-- `QRMode` from `chainerx/kernels/linalg.h` as used by the kernel. -/
inductive QRMode : Type
  | reduced
  | complete
  | r
  | raw
deriving DecidableEq, Repr

/-- Errors the kernel can throw: `DimensionError` (non-2-d input),
`DtypeError` (float16), and `ChainerxError` embedding the nonzero
`devInfo` status after `geqrf` resp. `orgqr`. -/
inductive QrErr : Type
  | dimensionError
  | dtypeError
  | geqrfError (info : Int)
  | orgqrError (info : Int)
deriving DecidableEq, Repr

/-- Identities of the device buffers the call touches.  Each kind is
allocated at most once per call, so the kind identifies the buffer. -/
inductive BufKind : Type
  | qPlaceholder   -- `Q = Empty(Shape({0}))`, line 54
  | rWork          -- `R = a.Transpose().Copy()`, line 55
  | tauBuf         -- `tau = Empty(Shape({mn}))`, line 56
  | devInfoCell    -- `cudaMalloc(&devInfo, sizeof(int))`, line 66
  | geqrfScratch   -- `work = Empty(Shape({buffersize_geqrf}))`, line 71
  | qWork          -- `Q = Empty(...)`, lines 95 / 98
  | orgqrScratch   -- `work = Empty(Shape({buffersize_orgqr}))`, line 107
deriving DecidableEq, Repr

/-- Trace events: device allocations/releases, the two vendor
invocations (recording which scratch buffer's pointer is passed and the
dimension arguments), and the host read-backs of the status cell. -/
inductive Event : Type
  | alloc (kind : BufKind) (numel : Nat)
  | free (kind : BufKind)
  | geqrfCall (scratch : BufKind) (size : Nat) (m n : Nat)
  | orgqrCall (scratch : BufKind) (size : Nat) (m mc k : Nat)
  | readInfo (v : Int)
deriving DecidableEq, Repr

/-- Whether an event is an invocation of the reflector-accumulation
primitive (`orgqr`). -/
def Event.isOrgqr : Event → Bool
  | .orgqrCall _ _ _ _ _ => true
  | _ => false

/-- A two-dimensional row-major array view: `entry i j` is the element
at row `i`, column `j` (meaningful for `i < rows`, `j < cols`). -/
structure Mat (α : Type) : Type where
  rows : Nat
  cols : Nat
  entry : Nat → Nat → α

/-- A result array handed back to the caller: either 1-dimensional
(`tau`, the empty `Q` placeholder) or 2-dimensional. -/
inductive Out (α : Type) : Type
  | vec (len : Nat) (entry : Nat → α)
  | mat (m : Mat α)

/-- The ChainerX shape of a result array. -/
def Out.shape : Out α → List Nat
  | .vec l _ => [l]
  | .mat M => [M.rows, M.cols]

/-- The caller's input array `a`: dtype tag, shape, and contents indexed
by a multi-index (for a 2-d array, `entry [i, j]`). -/
structure NdArr (α : Type) : Type where
  dtype : Dtype
  shape : List Nat
  entry : List Nat → α

/-- Oracle for one dtype's four cuSOLVER entry points.  `geqrf` consumes
the (n, m) row-major working buffer (= column-major m×n) and yields its
overwritten contents, the tau values, and the devInfo status; `orgqr`
consumes the seeded Q buffer and tau and yields the overwritten Q buffer
contents and the devInfo status.  Buffer sizes depend on the dimension
arguments. -/
structure Solver (α : Type) : Type where
  geqrfBufferSize : Nat → Nat → Nat
  geqrf : Nat → Nat → (Nat → Nat → α) → (Nat → Nat → α) × (Nat → α) × Int
  orgqrBufferSize : Nat → Nat → Nat → Nat
  orgqr : Nat → Nat → Nat → (Nat → Nat → α) → (Nat → α) → (Nat → Nat → α) × Int

/-- The accumulation width `mc` (lines 92–99): `m` when mode is complete
and `m > n`, else `min m n`. -/
def mcOf (mode : QRMode) (m n : Nat) : Nat :=
  if mode = QRMode.complete ∧ m > n then m else min m n

/-- Row count of the Q working buffer before the final transpose:
`Shape({m, m})` in the complete/m>n branch, `Shape({n, m})` otherwise
(lines 95 / 98). -/
def qrowsOf (mode : QRMode) (m n : Nat) : Nat :=
  if mode = QRMode.complete ∧ m > n then m else n

/-- Contents of the Q working buffer after `Q[0:n, :] = R` (line 101):
the first `n` rows are the post-geqrf working buffer, the rest is
uninitialized `Empty` memory (modelled as 0; `orgqr` overwrites it). -/
def qseedOf [Zero α] (n : Nat) (rb : Nat → Nat → α) : Nat → Nat → α :=
  fun i j => if i < n then rb i j else 0

/-- The inner lambda `qr_impl` (lines 58–121).  `R0` is the working
buffer holding the transposed copy of the input (shape (n, m) row-major).
Returns the event trace and either an error or the `(Q, R)` pair.

Source correspondence, in order: devInfo `cudaMalloc` (66); geqrf
buffer-size query (69) and scratch allocation (71), with the raw scratch
pointer `work_ptr` taken here (72); `geqrf` invocation (74); status
read-back (77) and failure throw (78–80); mode `r` early return with
`R = Triu(R[:, 0:mn].T)` (82–86); mode `raw` early return `(R, tau)`
(88–90); Q working buffer allocation (92–99) and seeding (101); orgqr
buffer-size query (104–105); fresh scratch allocation (107) — note the
reassignment of `work` drops the geqrf scratch, yet the `orgqr`
invocation (109) still passes the `work_ptr` captured at line 72; status
read-back (111) and failure throw (112–114); final
`Q = Q[0:mc, :].T.Copy()` (117) and `R = Triu(R[:, 0:mc].T)` (118–119). -/
def qr_impl [Zero α] (S : Solver α) (mode : QRMode) (m n : Nat) (R0 : Mat α) :
    List Event × Except QrErr (Out α × Out α) :=
  let mn := min m n
  let s1 := S.geqrfBufferSize m n
  let g := S.geqrf m n R0.entry
  let rb := g.1
  let tauv := g.2.1
  let info1 := g.2.2
  let ev1 : List Event :=
    [Event.alloc BufKind.devInfoCell 1,
     Event.alloc BufKind.geqrfScratch s1,
     Event.geqrfCall BufKind.geqrfScratch s1 m n,
     Event.readInfo info1]
  if info1 ≠ 0 then
    (ev1, Except.error (QrErr.geqrfError info1))
  else if mode = QRMode.r then
    (ev1, Except.ok (Out.vec 0 (fun _ => 0),
                     Out.mat ⟨mn, n, fun i j => if j < i then 0 else rb j i⟩))
  else if mode = QRMode.raw then
    (ev1, Except.ok (Out.mat ⟨n, m, rb⟩, Out.vec mn tauv))
  else
    let mc := mcOf mode m n
    let qrows := qrowsOf mode m n
    let qseed := qseedOf n rb
    let s2 := S.orgqrBufferSize m mc mn
    let o := S.orgqr m mc mn qseed tauv
    let qb := o.1
    let info2 := o.2
    let ev2 : List Event :=
      ev1 ++
      [Event.alloc BufKind.qWork (qrows * m),
       Event.free BufKind.geqrfScratch,
       Event.alloc BufKind.orgqrScratch s2,
       Event.orgqrCall BufKind.geqrfScratch s2 m mc mn,
       Event.readInfo info2]
    if info2 ≠ 0 then
      (ev2, Except.error (QrErr.orgqrError info2))
    else
      (ev2, Except.ok (Out.mat ⟨m, mc, fun i j => qb j i⟩,
                       Out.mat ⟨mc, n, fun i j => if j < i then 0 else rb j i⟩))

/-- The working buffer `R = a.Transpose().Copy()` (line 55): the (n, m)
row-major transposed copy of the 2-d input. -/
def transposeCopy (a : NdArr α) (m n : Nat) : Mat α :=
  ⟨n, m, fun i j => a.entry [j, i]⟩

/-- `CudaQRKernel::Call` (lines 41–137).  Validates the rank (46–48),
allocates the Q placeholder, the transposed working copy and tau
(54–56), then dispatches on dtype (123–137): float16 throws DtypeError,
float32/float64 run `qr_impl` with the respective cuSOLVER entry
points. -/
def qrCall [Zero α] (S32 S64 : Solver α) (a : NdArr α) (mode : QRMode) :
    List Event × Except QrErr (Out α × Out α) :=
  if a.shape.length ≠ 2 then
    ([], Except.error QrErr.dimensionError)
  else
    let m := a.shape.getD 0 0
    let n := a.shape.getD 1 0
    let mn := min m n
    let ev0 : List Event :=
      [Event.alloc BufKind.qPlaceholder 0,
       Event.alloc BufKind.rWork (n * m),
       Event.alloc BufKind.tauBuf mn]
    match a.dtype with
    | Dtype.float16 => (ev0, Except.error QrErr.dtypeError)
    | Dtype.float32 =>
        let p := qr_impl S32 mode m n (transposeCopy a m n)
        (ev0 ++ p.1, p.2)
    | Dtype.float64 =>
        let p := qr_impl S64 mode m n (transposeCopy a m n)
        (ev0 ++ p.1, p.2)

/-! Concrete instances used by the witnesses. -/

/-- A solver oracle that always succeeds and leaves buffers unchanged. -/
def zeroSolver : Solver Int :=
  ⟨fun _ _ => 1,
   fun _ _ b => (b, fun _ => 0, 0),
   fun _ _ _ => 2,
   fun _ _ _ q _ => (q, 0)⟩

/-- A solver oracle whose `geqrf` reports status 7. -/
def badGeqrfSolver : Solver Int :=
  ⟨fun _ _ => 1,
   fun _ _ b => (b, fun _ => 0, 7),
   fun _ _ _ => 2,
   fun _ _ _ q _ => (q, 0)⟩

/-- A solver oracle whose `geqrf` succeeds but whose `orgqr` reports
status 3. -/
def badOrgqrSolver : Solver Int :=
  ⟨fun _ _ => 1,
   fun _ _ b => (b, fun _ => 0, 0),
   fun _ _ _ => 2,
   fun _ _ _ q _ => (q, 3)⟩

/-- A concrete valid 2×2 float32 input. -/
def sampleA : NdArr Int :=
  ⟨Dtype.float32, [2, 2], fun l => l.getD 0 0 + 2 * l.getD 1 0⟩

/-- A concrete 3×2 float32 input (the spec's concrete scenario shape). -/
def sampleA32 : NdArr Int :=
  ⟨Dtype.float32, [3, 2], fun l => l.getD 0 0 + 2 * l.getD 1 0⟩

/-- A concrete 2×2 float16 input. -/
def sampleA16 : NdArr Int :=
  ⟨Dtype.float16, [2, 2], fun _ => 0⟩

/-- A concrete 2×2 float64 input. -/
def sampleA64 : NdArr Int :=
  ⟨Dtype.float64, [2, 2], fun l => 3 * l.getD 0 0 + l.getD 1 0⟩

/-- A concrete 1-dimensional input. -/
def sampleA1d : NdArr Int :=
  ⟨Dtype.float32, [4], fun _ => 0⟩

/-- The working buffer contents for a concrete 2×2 run of `qr_impl`. -/
def sampleR0 : Mat Int :=
  transposeCopy sampleA 2 2

/-- The working buffer contents for a concrete 3×2 run of `qr_impl`. -/
def sampleR32 : Mat Int :=
  transposeCopy sampleA32 3 2

/-! Theorems. -/

/-- Helper: every exit path of `qr_impl` has the devInfo allocation in
its trace and no release of the devInfo cell (the source has no
`cudaFree(devInfo)`). -/
theorem qr_impl_devInfo [Zero α] (S : Solver α) (mode : QRMode) (m n : Nat) (R0 : Mat α) :
    Event.alloc BufKind.devInfoCell 1 ∈ (qr_impl S mode m n R0).1 ∧
    Event.free BufKind.devInfoCell ∉ (qr_impl S mode m n R0).1 := by
  by_cases h1 : (S.geqrf m n R0.entry).2.2 = 0 <;>
  by_cases h2 : (S.orgqr m (mcOf mode m n) (min m n)
      (qseedOf n (S.geqrf m n R0.entry).1) (S.geqrf m n R0.entry).2.1).2 = 0 <;>
  cases mode <;>
  simp [qr_impl, h1, h2]

/-- C1: for every valid 2-d float32/float64 input and every mode, the
devInfo status cell is allocated during the call but is never released
on any exit path — the claimed scoped release does not happen; the
source contains no `cudaFree(devInfo)`, so the cell leaks. -/
theorem qrCall_devInfo_never_freed [Zero α] (S32 S64 : Solver α) (a : NdArr α)
    (mode : QRMode) (h2 : a.shape.length = 2)
    (hd : a.dtype = Dtype.float32 ∨ a.dtype = Dtype.float64) :
    Event.alloc BufKind.devInfoCell 1 ∈ (qrCall S32 S64 a mode).1 ∧
    Event.free BufKind.devInfoCell ∉ (qrCall S32 S64 a mode).1 := by
  have key32 := qr_impl_devInfo S32 mode (a.shape.getD 0 0) (a.shape.getD 1 0)
      (transposeCopy a (a.shape.getD 0 0) (a.shape.getD 1 0))
  have key64 := qr_impl_devInfo S64 mode (a.shape.getD 0 0) (a.shape.getD 1 0)
      (transposeCopy a (a.shape.getD 0 0) (a.shape.getD 1 0))
  unfold qrCall
  rw [if_neg (by simp [h2])]
  rcases hd with hd | hd <;> rw [hd] <;> simp_all [List.mem_append]

/-- C1 witness: the devInfo leak observed on a concrete successful
reduced-mode 2×2 float32 call. -/
theorem qrCall_devInfo_never_freed_witness :
    Event.alloc BufKind.devInfoCell 1 ∈
      (qrCall zeroSolver zeroSolver sampleA QRMode.reduced).1 ∧
    Event.free BufKind.devInfoCell ∉
      (qrCall zeroSolver zeroSolver sampleA QRMode.reduced).1 :=
  qrCall_devInfo_never_freed zeroSolver zeroSolver sampleA QRMode.reduced rfl (Or.inl rfl)

/-- C2 counterexample: on a concrete 2-d float16 input the call does
raise DtypeError, but the trace of that very call already holds the
device allocation of the transposed working copy (`R =
a.Transpose().Copy()`, line 55) — so the error is not raised before any
device memory has been allocated. -/
theorem qrCall_float16_allocates_before_raise :
    (qrCall zeroSolver zeroSolver sampleA16 QRMode.reduced).2 =
      Except.error QrErr.dtypeError ∧
    Event.alloc BufKind.rWork 4 ∈
      (qrCall zeroSolver zeroSolver sampleA16 QRMode.reduced).1 :=
  ⟨rfl, by decide⟩

/-- C2 (amended): for every 2-d float16 input the call raises
DtypeError, but only after the Q placeholder, the transposed working
copy and tau have been allocated (lines 54–56 precede the dtype switch);
no devInfo or scratch allocation happens before the raise. -/
theorem qrCall_float16_raises_after_setup [Zero α] (S32 S64 : Solver α)
    (a : NdArr α) (mode : QRMode) (h2 : a.shape.length = 2)
    (hd : a.dtype = Dtype.float16) :
    (qrCall S32 S64 a mode).2 = Except.error QrErr.dtypeError ∧
    (qrCall S32 S64 a mode).1 =
      [Event.alloc BufKind.qPlaceholder 0,
       Event.alloc BufKind.rWork (a.shape.getD 1 0 * a.shape.getD 0 0),
       Event.alloc BufKind.tauBuf (min (a.shape.getD 0 0) (a.shape.getD 1 0))] := by
  unfold qrCall
  rw [if_neg (by simp [h2])]
  rw [hd]
  exact ⟨rfl, rfl⟩

/-- C2 witness: the amended float16 behaviour on a concrete 2×2
input. -/
theorem qrCall_float16_raises_after_setup_witness :
    (qrCall zeroSolver zeroSolver sampleA16 QRMode.raw).2 =
      Except.error QrErr.dtypeError ∧
    (qrCall zeroSolver zeroSolver sampleA16 QRMode.raw).1 =
      [Event.alloc BufKind.qPlaceholder 0,
       Event.alloc BufKind.rWork (sampleA16.shape.getD 1 0 * sampleA16.shape.getD 0 0),
       Event.alloc BufKind.tauBuf
         (min (sampleA16.shape.getD 0 0) (sampleA16.shape.getD 1 0))] :=
  qrCall_float16_raises_after_setup zeroSolver zeroSolver sampleA16 QRMode.raw rfl rfl

/-- C3: whenever the accumulation stage runs, a fresh scratch buffer of
the queried size S2 is allocated (line 107), yet the `orgqr` invocation
(line 109) is handed the stage-2 scratch buffer's pointer — `work_ptr`
was captured at line 72 and never re-taken after the reallocation — so
the freshly allocated S2 buffer is not the one passed to the
primitive. -/
theorem qr_impl_orgqr_gets_stale_scratch [Zero α] (S : Solver α) (mode : QRMode)
    (m n : Nat) (R0 : Mat α)
    (hge : (S.geqrf m n R0.entry).2.2 = 0)
    (hm : mode = QRMode.reduced ∨ mode = QRMode.complete) :
    Event.alloc BufKind.orgqrScratch
        (S.orgqrBufferSize m (mcOf mode m n) (min m n)) ∈ (qr_impl S mode m n R0).1 ∧
    Event.orgqrCall BufKind.geqrfScratch
        (S.orgqrBufferSize m (mcOf mode m n) (min m n))
        m (mcOf mode m n) (min m n) ∈ (qr_impl S mode m n R0).1 := by
  by_cases h2 : (S.orgqr m (mcOf mode m n) (min m n)
      (qseedOf n (S.geqrf m n R0.entry).1) (S.geqrf m n R0.entry).2.1).2 = 0 <;>
  rcases hm with hm | hm <;> subst hm <;>
  simp [qr_impl, hge, h2]

/-- C3 witness: the stale-scratch hand-off on a concrete reduced-mode
2×2 run. -/
theorem qr_impl_orgqr_gets_stale_scratch_witness :
    Event.alloc BufKind.orgqrScratch
        (zeroSolver.orgqrBufferSize 2 (mcOf QRMode.reduced 2 2) (min 2 2)) ∈
      (qr_impl zeroSolver QRMode.reduced 2 2 sampleR0).1 ∧
    Event.orgqrCall BufKind.geqrfScratch
        (zeroSolver.orgqrBufferSize 2 (mcOf QRMode.reduced 2 2) (min 2 2))
        2 (mcOf QRMode.reduced 2 2) (min 2 2) ∈
      (qr_impl zeroSolver QRMode.reduced 2 2 sampleR0).1 :=
  qr_impl_orgqr_gets_stale_scratch zeroSolver QRMode.reduced 2 2 sampleR0 rfl (Or.inl rfl)

/-- C4: the status cell is read back after each vendor invocation; a
nonzero status after `geqrf` raises a decomposition error embedding the
code and no `orgqr` invocation ever appears in that call's trace, and a
nonzero status after `orgqr` likewise raises a decomposition error
embedding the code. -/
theorem qr_impl_status_checks [Zero α] (S : Solver α) (mode : QRMode)
    (m n : Nat) (R0 : Mat α) :
    Event.readInfo (S.geqrf m n R0.entry).2.2 ∈ (qr_impl S mode m n R0).1 ∧
    (∀ d : Int, d ≠ 0 → (S.geqrf m n R0.entry).2.2 = d →
      (qr_impl S mode m n R0).2 = Except.error (QrErr.geqrfError d) ∧
      (qr_impl S mode m n R0).1.countP Event.isOrgqr = 0) ∧
    (∀ d : Int, d ≠ 0 → (S.geqrf m n R0.entry).2.2 = 0 →
      (mode = QRMode.reduced ∨ mode = QRMode.complete) →
      (S.orgqr m (mcOf mode m n) (min m n)
        (qseedOf n (S.geqrf m n R0.entry).1) (S.geqrf m n R0.entry).2.1).2 = d →
      Event.readInfo d ∈ (qr_impl S mode m n R0).1 ∧
      (qr_impl S mode m n R0).2 = Except.error (QrErr.orgqrError d)) := by
  refine ⟨?_, ?_, ?_⟩
  · by_cases h1 : (S.geqrf m n R0.entry).2.2 = 0 <;>
    by_cases h2 : (S.orgqr m (mcOf mode m n) (min m n)
        (qseedOf n (S.geqrf m n R0.entry).1) (S.geqrf m n R0.entry).2.1).2 = 0 <;>
    cases mode <;>
    simp [qr_impl, h1, h2]
  · intro d hd hge
    have h1 : ¬ (S.geqrf m n R0.entry).2.2 = 0 := by rw [hge]; exact hd
    constructor <;> simp [qr_impl, h1, hge, hd, Event.isOrgqr]
  · intro d hd hge hm ho
    have h2 : ¬ (S.orgqr m (mcOf mode m n) (min m n)
        (qseedOf n (S.geqrf m n R0.entry).1) (S.geqrf m n R0.entry).2.1).2 = 0 := by
      rw [ho]; exact hd
    rcases hm with hm | hm <;> subst hm <;>
    constructor <;> simp [qr_impl, hge, h2, ho, hd]

/-- C4 witness: a geqrf failure (status 7) raising with no orgqr
invocation, and an orgqr failure (status 3) read back and raising, on
concrete 2×2 runs. -/
theorem qr_impl_status_checks_witness :
    ((qr_impl badGeqrfSolver QRMode.reduced 2 2 sampleR0).2 =
        Except.error (QrErr.geqrfError 7) ∧
      (qr_impl badGeqrfSolver QRMode.reduced 2 2 sampleR0).1.countP Event.isOrgqr = 0) ∧
    Event.readInfo 3 ∈ (qr_impl badOrgqrSolver QRMode.reduced 2 2 sampleR0).1 ∧
    (qr_impl badOrgqrSolver QRMode.reduced 2 2 sampleR0).2 =
        Except.error (QrErr.orgqrError 3) :=
  ⟨(qr_impl_status_checks badGeqrfSolver QRMode.reduced 2 2 sampleR0).2.1 7
      (by decide) rfl,
   (qr_impl_status_checks badOrgqrSolver QRMode.reduced 2 2 sampleR0).2.2 3
      (by decide) rfl (Or.inl rfl) rfl⟩

/-- C5: in every mode other than raw, a successful call returns an R
whose entries strictly below the main diagonal are all zero (the
`Triu(R, 0)` at lines 84 / 119). -/
theorem qr_impl_R_upper_triangular [Zero α] (S : Solver α) (mode : QRMode)
    (m n : Nat) (R0 : Mat α) (hmode : mode ≠ QRMode.raw)
    (q r : Out α) (h : (qr_impl S mode m n R0).2 = Except.ok (q, r)) :
    ∃ M : Mat α, r = Out.mat M ∧ ∀ i j, j < i → M.entry i j = 0 := by
  by_cases h1 : (S.geqrf m n R0.entry).2.2 = 0
  · by_cases h2 : (S.orgqr m (mcOf mode m n) (min m n)
        (qseedOf n (S.geqrf m n R0.entry).1) (S.geqrf m n R0.entry).2.1).2 = 0 <;>
    cases mode <;>
    simp [qr_impl, h1, h2] at h <;>
    first
      | exact absurd rfl hmode
      | (obtain ⟨hq, hr⟩ := h
         exact ⟨_, hr.symm, by intro i j hij; simp [hij]⟩)
  · simp [qr_impl, h1] at h

/-- C5 witness: the upper-triangular R on a concrete successful
reduced-mode 2×2 run. -/
theorem qr_impl_R_upper_triangular_witness :
    QRMode.reduced ≠ QRMode.raw ∧
    ∃ q r, (qr_impl zeroSolver QRMode.reduced 2 2 sampleR0).2 = Except.ok (q, r) ∧
      ∃ M : Mat Int, r = Out.mat M ∧ ∀ i j, j < i → M.entry i j = 0 :=
  ⟨by decide, _, _, rfl,
    qr_impl_R_upper_triangular zeroSolver QRMode.reduced 2 2 sampleR0 (by decide) _ _ rfl⟩

/-- C6: after a successful reflector-generation stage, r mode returns
the empty placeholder (shape `(0)`) as Q together with an R equal to the
R a reduced-mode call on the same input returns, and no
reflector-accumulation invocation appears in the r-mode trace. -/
theorem qr_impl_r_mode_matches_reduced [Zero α] (S : Solver α) (m n : Nat) (R0 : Mat α)
    (hge : (S.geqrf m n R0.entry).2.2 = 0) :
    ∃ q r, (qr_impl S QRMode.r m n R0).2 = Except.ok (q, r) ∧
      q.shape = [0] ∧
      (∀ q2 r2, (qr_impl S QRMode.reduced m n R0).2 = Except.ok (q2, r2) → r2 = r) ∧
      (qr_impl S QRMode.r m n R0).1.countP Event.isOrgqr = 0 := by
  refine ⟨Out.vec 0 (fun _ => 0),
          Out.mat ⟨min m n, n, fun i j => if j < i then 0 else (S.geqrf m n R0.entry).1 j i⟩,
          by simp [qr_impl, hge], by simp [Out.shape], ?_,
          by simp [qr_impl, hge, Event.isOrgqr]⟩
  intro q2 r2 h
  by_cases h2 : (S.orgqr m (min m n) (min m n)
      (qseedOf n (S.geqrf m n R0.entry).1) (S.geqrf m n R0.entry).2.1).2 = 0 <;>
  simp [qr_impl, hge, mcOf, h2] at h
  exact h.2.symm

/-- C6 witness: the r-mode / reduced-mode agreement on a concrete 2×2
run. -/
theorem qr_impl_r_mode_matches_reduced_witness :
    ∃ q r, (qr_impl zeroSolver QRMode.r 2 2 sampleR0).2 = Except.ok (q, r) ∧
      q.shape = [0] ∧
      (∀ q2 r2, (qr_impl zeroSolver QRMode.reduced 2 2 sampleR0).2 =
        Except.ok (q2, r2) → r2 = r) ∧
      (qr_impl zeroSolver QRMode.r 2 2 sampleR0).1.countP Event.isOrgqr = 0 :=
  qr_impl_r_mode_matches_reduced zeroSolver 2 2 sampleR0 rfl

/-- C7: on success, reduced mode returns Q of shape (m, min(m,n)) and R
of shape (min(m,n), n); complete mode with m > n returns a square m×m Q;
complete mode with m = n takes the economy branch (mc = min(m,n)) and
still returns an m×m Q. -/
theorem qr_impl_output_shapes [Zero α] (S : Solver α) (m n : Nat) (R0 : Mat α) :
    (∀ q r, (qr_impl S QRMode.reduced m n R0).2 = Except.ok (q, r) →
      q.shape = [m, min m n] ∧ r.shape = [min m n, n]) ∧
    (m > n → ∀ q r, (qr_impl S QRMode.complete m n R0).2 = Except.ok (q, r) →
      q.shape = [m, m]) ∧
    (m = n → mcOf QRMode.complete m n = min m n ∧
      ∀ q r, (qr_impl S QRMode.complete m n R0).2 = Except.ok (q, r) →
        q.shape = [m, m]) := by
  refine ⟨?_, ?_, ?_⟩
  · intro q r h
    by_cases h1 : (S.geqrf m n R0.entry).2.2 = 0 <;>
    by_cases h2 : (S.orgqr m (min m n) (min m n)
        (qseedOf n (S.geqrf m n R0.entry).1) (S.geqrf m n R0.entry).2.1).2 = 0 <;>
    simp [qr_impl, mcOf, h1, h2] at h <;>
    obtain ⟨rfl, rfl⟩ := h <;>
    simp [Out.shape]
  · intro hmn q r h
    have hmc : mcOf QRMode.complete m n = m := by simp [mcOf, hmn]
    by_cases h1 : (S.geqrf m n R0.entry).2.2 = 0 <;>
    by_cases h2 : (S.orgqr m m (min m n)
        (qseedOf n (S.geqrf m n R0.entry).1) (S.geqrf m n R0.entry).2.1).2 = 0 <;>
    simp [qr_impl, hmc, h1, h2] at h <;>
    obtain ⟨rfl, rfl⟩ := h <;>
    simp [Out.shape, hmc]
  · intro hmn
    subst hmn
    have hmc : mcOf QRMode.complete m m = min m m := by simp [mcOf]
    refine ⟨hmc, ?_⟩
    intro q r h
    by_cases h1 : (S.geqrf m m R0.entry).2.2 = 0 <;>
    by_cases h2 : (S.orgqr m m m
        (qseedOf m (S.geqrf m m R0.entry).1) (S.geqrf m m R0.entry).2.1).2 = 0 <;>
    simp [qr_impl, hmc, h1, h2] at h <;>
    obtain ⟨rfl, rfl⟩ := h <;>
    simp [Out.shape]

/-- C7 witness: the output shapes on concrete successful 3×2 reduced,
3×2 complete, and 2×2 complete runs. -/
theorem qr_impl_output_shapes_witness :
    (∃ q r, (qr_impl zeroSolver QRMode.reduced 3 2 sampleR32).2 = Except.ok (q, r) ∧
      q.shape = [3, min 3 2] ∧ r.shape = [min 3 2, 2]) ∧
    (∃ q r, (qr_impl zeroSolver QRMode.complete 3 2 sampleR32).2 = Except.ok (q, r) ∧
      q.shape = [3, 3]) ∧
    (mcOf QRMode.complete 2 2 = min 2 2 ∧
     ∃ q r, (qr_impl zeroSolver QRMode.complete 2 2 sampleR0).2 = Except.ok (q, r) ∧
      q.shape = [2, 2]) :=
  ⟨⟨_, _, rfl, (qr_impl_output_shapes zeroSolver 3 2 sampleR32).1 _ _ rfl⟩,
   ⟨_, _, rfl, (qr_impl_output_shapes zeroSolver 3 2 sampleR32).2.1 (by decide) _ _ rfl⟩,
   ((qr_impl_output_shapes zeroSolver 2 2 sampleR0).2.2 rfl).1,
   ⟨_, _, rfl, ((qr_impl_output_shapes zeroSolver 2 2 sampleR0).2.2 rfl).2 _ _ rfl⟩⟩

/-- C8: an input whose rank is not 2 raises DimensionError with an
empty trace — no device allocation happens before (or after) the
raise. -/
theorem qrCall_rejects_non_2d [Zero α] (S32 S64 : Solver α) (a : NdArr α)
    (mode : QRMode) (h : a.shape.length ≠ 2) :
    (qrCall S32 S64 a mode).2 = Except.error QrErr.dimensionError ∧
    (qrCall S32 S64 a mode).1 = [] := by
  unfold qrCall
  rw [if_pos h]
  exact ⟨rfl, rfl⟩

/-- C8 witness: the rejection of a concrete 1-dimensional input. -/
theorem qrCall_rejects_non_2d_witness :
    (qrCall zeroSolver zeroSolver sampleA1d QRMode.reduced).2 =
      Except.error QrErr.dimensionError ∧
    (qrCall zeroSolver zeroSolver sampleA1d QRMode.reduced).1 = [] :=
  qrCall_rejects_non_2d zeroSolver zeroSolver sampleA1d QRMode.reduced (by decide)

/-- C10: on a successful m×n float32 or float64 raw-mode call — `S`
being the solver the dtype switch dispatches to, `S32` for float32 and
`S64` for float64 — the first returned array is the (n, m) working
buffer exactly as `geqrf` left it (no sub-diagonal zeroing) and the
second is the 1-d tau buffer of length min(m, n); the Q placeholder an
r-mode call returns is a 1-dimensional array of shape (0). -/
theorem qrCall_raw_mode_outputs [Zero α] (S32 S64 S : Solver α)
    (a : NdArr α) (m n : Nat) (hsh : a.shape = [m, n])
    (hd : a.dtype = Dtype.float32 ∧ S = S32 ∨ a.dtype = Dtype.float64 ∧ S = S64)
    (hge : (S.geqrf m n (transposeCopy a m n).entry).2.2 = 0) :
    (qrCall S32 S64 a QRMode.raw).2 =
      Except.ok (Out.mat ⟨n, m, (S.geqrf m n (transposeCopy a m n).entry).1⟩,
                 Out.vec (min m n) (S.geqrf m n (transposeCopy a m n).entry).2.1) ∧
    (∀ q r, (qrCall S32 S64 a QRMode.r).2 = Except.ok (q, r) →
      q.shape = [0] ∧ q.shape.length = 1) := by
  have h0 : a.shape.getD 0 0 = m := by rw [hsh]; rfl
  have h1 : a.shape.getD 1 0 = n := by rw [hsh]; rfl
  rcases hd with ⟨hd, rfl⟩ | ⟨hd, rfl⟩
  · constructor
    · unfold qrCall
      rw [if_neg (by simp [hsh])]
      rw [hd]
      simp only [h0, h1]
      simp [qr_impl, hge]
    · intro q r h
      unfold qrCall at h
      rw [if_neg (by simp [hsh]), hd] at h
      simp only [h0, h1] at h
      simp [qr_impl, hge] at h
      obtain ⟨rfl, rfl⟩ := h
      simp [Out.shape]
  · constructor
    · unfold qrCall
      rw [if_neg (by simp [hsh])]
      rw [hd]
      simp only [h0, h1]
      simp [qr_impl, hge]
    · intro q r h
      unfold qrCall at h
      rw [if_neg (by simp [hsh]), hd] at h
      simp only [h0, h1] at h
      simp [qr_impl, hge] at h
      obtain ⟨rfl, rfl⟩ := h
      simp [Out.shape]

/-- C10 witness: the raw-mode pair and the r-mode placeholder shape on
concrete 2×2 runs of both dtypes — a float32 call dispatching to the
first solver and a float64 call dispatching to the second (the two
solvers differ, so the witness also exhibits which one the switch
picks). -/
theorem qrCall_raw_mode_outputs_witness :
    ((qrCall zeroSolver badOrgqrSolver sampleA QRMode.raw).2 =
      Except.ok
        (Out.mat ⟨2, 2, (zeroSolver.geqrf 2 2 (transposeCopy sampleA 2 2).entry).1⟩,
         Out.vec (min 2 2) (zeroSolver.geqrf 2 2 (transposeCopy sampleA 2 2).entry).2.1) ∧
    (∀ q r, (qrCall zeroSolver badOrgqrSolver sampleA QRMode.r).2 = Except.ok (q, r) →
      q.shape = [0] ∧ q.shape.length = 1)) ∧
    ((qrCall zeroSolver badOrgqrSolver sampleA64 QRMode.raw).2 =
      Except.ok
        (Out.mat ⟨2, 2, (badOrgqrSolver.geqrf 2 2 (transposeCopy sampleA64 2 2).entry).1⟩,
         Out.vec (min 2 2) (badOrgqrSolver.geqrf 2 2 (transposeCopy sampleA64 2 2).entry).2.1) ∧
    (∀ q r, (qrCall zeroSolver badOrgqrSolver sampleA64 QRMode.r).2 = Except.ok (q, r) →
      q.shape = [0] ∧ q.shape.length = 1)) :=
  ⟨qrCall_raw_mode_outputs zeroSolver badOrgqrSolver zeroSolver sampleA 2 2 rfl
      (Or.inl ⟨rfl, rfl⟩) rfl,
   qrCall_raw_mode_outputs zeroSolver badOrgqrSolver badOrgqrSolver sampleA64 2 2 rfl
      (Or.inr ⟨rfl, rfl⟩) rfl⟩

end ChainerxQR
